import Mathlib

/-!
# Shallow embedding of the Wired article-scraping actor (src/main.py)

The program plans a bounded listing-page crawl, routes fetched pages to two
handlers (a default listing handler and an "ARTICLE" handler), extracts
title/content, conditionally summarizes via an LLM client, pushes one record
per article and charges one billing event per article with truthy content.

Machine-level conventions of the embedding:
* Python integers are `Int`; `math.ceil(a / b)` on integer inputs is modelled
  as exact rational ceiling (floats are exact at the magnitudes involved).
* CSS-selector extraction results are `Option String`: `none` models a missing
  element, `some t` models an element whose stripped text is `t`.
* The OpenAI call is a parameter `summarize : String → Except String String`:
  `Except.ok s` models a response object with `output_text = s`, and
  `Except.error e` models the call raising an exception with payload `e`.
* Handler effects (enqueue_links / push_data / Actor.charge calls) are
  returned explicitly, in an effects record, together with `Option String`
  for a propagated exception; effects after a raised exception do not happen.
-/

/-- `ARTICLES_PER_PAGE = 24` (main.py, line 44). -/
def ARTICLES_PER_PAGE : Int := 24

/-- Exact integer ceiling division: models Python `math.ceil(a / b)` for
integer `a` and positive integer `b` (line 47).  `-((-a) / b)` uses Lean's
Euclidean division, which floors for positive divisors. -/
def ceil_div (a b : Int) : Int := -((-a) / b)

/-- `total_pages = ceil(max_articles / ARTICLES_PER_PAGE)` (line 47). -/
def total_pages (max_articles : Int) : Int := ceil_div max_articles ARTICLES_PER_PAGE

/-- `base_url = "https://www.wired.com/tag/programming"` (line 50). -/
def base_url : String := "https://www.wired.com/tag/programming"

/-- Decimal digit characters, as produced by Python string interpolation. -/
def digitChar (d : Nat) : Char :=
  match d with
  | 0 => '0' | 1 => '1' | 2 => '2' | 3 => '3' | 4 => '4'
  | 5 => '5' | 6 => '6' | 7 => '7' | 8 => '8' | 9 => '9'
  | _ => '*'

/-- Decimal digit list of a natural number, most significant first,
mirroring Python's `str`/f-string formatting of a nonnegative int. -/
def natDigits (n : Nat) : List Char :=
  if _h : n < 10 then [digitChar n]
  else natDigits (n / 10) ++ [digitChar (n % 10)]
decreasing_by exact Nat.div_lt_self (by omega) (by omega)

/-- Python `f"{page}"` for a nonnegative integer `page`. -/
def pyStr (n : Nat) : String := String.mk (natDigits n)

/-- `f"{base_url}/?page={page}"` (line 53). -/
def page_url (base : String) (page : Nat) : String :=
  base ++ "/?page=" ++ pyStr page

/-- Body of the list comprehension at lines 52-55: the URL emitted for the
zero-based index `i` (Python's `page` is `i + 1`). -/
def seedUrl (base : String) (i : Nat) : String :=
  if i + 1 = 1 then base else page_url base (i + 1)

/-- `start_urls = [base_url if page == 1 else f"{base_url}/?page={page}"
for page in range(1, total_pages + 1)]` (lines 52-55), parameterized by the
base URL and the page total. -/
def seed_urls (base : String) (pages : Int) : List String :=
  (List.range pages.toNat).map (seedUrl base)

/-- The source's `start_urls` value as a function of `max_articles`. -/
def start_urls (max_articles : Int) : List String :=
  seed_urls base_url (total_pages max_articles)

/-- The crawl plan of spec section 3: page count plus ordered seed URLs. -/
structure CrawlPlan where
  pageCount : Int
  seedUrls : List String
  deriving DecidableEq

/-- PageBudgetPlanner (lines 44-55), with the constant `ARTICLES_PER_PAGE`
lifted to the parameter `pageSize`; the source instantiates `pageSize = 24`
and `baseUrl = base_url`. -/
def plan (baseUrl : String) (targetItemCount pageSize : Int) : CrawlPlan :=
  { pageCount := ceil_div targetItemCount pageSize
    seedUrls := seed_urls baseUrl (ceil_div targetItemCount pageSize) }

/-- `max_requests_per_crawl = max_articles + total_pages` (line 57). -/
def max_requests_per_crawl (max_articles : Int) : Int :=
  max_articles + total_pages max_articles

/-- The planning stage of `main` (lines 44-57).  The source performs no input
validation and contains no `raise` between reading `maxArticles` and
constructing the crawler, so planning always succeeds. -/
def planningStep (max_articles : Int) : Except String CrawlPlan :=
  Except.ok (plan base_url max_articles ARTICLES_PER_PAGE)

-- ### Arithmetic facts about the planner

theorem ceil_div_spec (a b : Int) (hb : 0 < b) :
    b * ceil_div a b - b < a ∧ a ≤ b * ceil_div a b := by
  have h1 : b * ((-a) / b) + (-a) % b = -a := Int.ediv_add_emod (-a) b
  have h2 : 0 ≤ (-a) % b := Int.emod_nonneg (-a) (by omega)
  have h3 : (-a) % b < b := Int.emod_lt_of_pos (-a) hb
  unfold ceil_div
  constructor
  · nlinarith [h1, h2, h3]
  · nlinarith [h1, h2, h3]

theorem ceil_div_eq_ceil (a b : Int) (hb : 0 < b) :
    ceil_div a b = Int.ceil ((a : ℚ) / (b : ℚ)) := by
  obtain ⟨h1, h2⟩ := ceil_div_spec a b hb
  have g1 : (ceil_div a b - 1) * b < a := by nlinarith
  have g2 : a ≤ ceil_div a b * b := by nlinarith
  have hbq : (0 : ℚ) < (b : ℚ) := by exact_mod_cast hb
  symm
  rw [Int.ceil_eq_iff]
  constructor
  · rw [lt_div_iff₀ hbq]
    exact_mod_cast g1
  · rw [div_le_iff₀ hbq]
    exact_mod_cast g2

theorem ceil_div_pos {a b : Int} (ha : 0 < a) (hb : 0 < b) : 0 < ceil_div a b := by
  obtain ⟨h1, h2⟩ := ceil_div_spec a b hb
  nlinarith

theorem ceil_div_nonpos {a b : Int} (ha : a ≤ 0) (hb : 0 < b) : ceil_div a b ≤ 0 := by
  by_contra h
  push_neg at h
  obtain ⟨h1, h2⟩ := ceil_div_spec a b hb
  nlinarith

-- ### Injectivity of the decimal page formatting

/-- Value of a decimal digit character; inverse of `digitChar` below 10. -/
def charVal (c : Char) : Nat := c.toNat - 48

/-- Decode a digit list back to the natural number it denotes. -/
def decodeDigits (cs : List Char) : Nat :=
  cs.foldl (fun a c => 10 * a + charVal c) 0

theorem charVal_digitChar (d : Nat) (h : d < 10) : charVal (digitChar d) = d := by
  interval_cases d <;> rfl

theorem natDigits_ne_nil (n : Nat) : natDigits n ≠ [] := by
  rw [natDigits]
  split <;> simp

theorem decode_natDigits (n : Nat) : decodeDigits (natDigits n) = n := by
  induction n using Nat.strong_induction_on with
  | _ n ih =>
    rw [natDigits]
    split
    · next h =>
      simp [decodeDigits, charVal_digitChar n h]
    · next h =>
      have hd : n / 10 < n := Nat.div_lt_self (by omega) (by omega)
      have ihd := ih (n / 10) hd
      have hm : charVal (digitChar (n % 10)) = n % 10 :=
        charVal_digitChar (n % 10) (Nat.mod_lt n (by omega))
      simp only [decodeDigits, List.foldl_append, List.foldl_cons, List.foldl_nil] at ihd ⊢
      rw [ihd, hm]
      omega

theorem pyStr_injective {m n : Nat} (h : pyStr m = pyStr n) : m = n := by
  have h2 : natDigits m = natDigits n := congrArg String.data h
  have h3 := congrArg decodeDigits h2
  rwa [decode_natDigits, decode_natDigits] at h3

-- ### String facts used for distinctness of the seed URLs

theorem string_append_left_cancel {s t u : String} (h : s ++ t = s ++ u) : t = u := by
  have h2 := congrArg String.data h
  rw [String.data_append, String.data_append] at h2
  exact String.ext (List.append_cancel_left h2)

theorem base_ne_page_url (base : String) (k : Nat) : base ≠ page_url base k := by
  intro h
  have h2 := congrArg (fun s : String => s.data.length) h
  simp only [page_url, String.data_append, List.length_append] at h2
  have h3 : (pyStr k).data.length ≠ 0 := by
    simpa [pyStr] using natDigits_ne_nil k
  omega

theorem page_url_inj (base : String) {i j : Nat}
    (h : page_url base i = page_url base j) : i = j := by
  unfold page_url at h
  exact pyStr_injective (string_append_left_cancel h)

theorem seedUrl_inj (base : String) {i j : Nat}
    (h : seedUrl base i = seedUrl base j) : i = j := by
  unfold seedUrl at h
  by_cases hi : i + 1 = 1 <;> by_cases hj : j + 1 = 1
  · omega
  · rw [if_pos hi, if_neg hj] at h
    exact absurd h (base_ne_page_url base (j + 1))
  · rw [if_neg hi, if_pos hj] at h
    exact absurd h.symm (base_ne_page_url base (i + 1))
  · rw [if_neg hi, if_neg hj] at h
    have := page_url_inj base h
    omega

theorem seed_urls_nodup (base : String) (p : Int) : (seed_urls base p).Nodup := by
  unfold seed_urls
  exact (List.nodup_range _).map fun _ _ h => seedUrl_inj base h

theorem seed_urls_length (base : String) (p : Int) (hp : 0 ≤ p) :
    ((seed_urls base p).length : Int) = p := by
  unfold seed_urls
  simp [Int.toNat_of_nonneg hp]

theorem seed_urls_eq_nil {base : String} {p : Int} (hp : p ≤ 0) :
    seed_urls base p = [] := by
  unfold seed_urls
  rw [Int.toNat_of_nonpos hp]
  rfl

theorem seed_urls_head (base : String) (p : Int) (hp : 0 < p) :
    (seed_urls base p).head? = some base := by
  unfold seed_urls
  have h1 : p.toNat = (p.toNat - 1) + 1 := by omega
  rw [h1, List.range_succ_eq_map]
  simp [seedUrl]

theorem seed_urls_get (base : String) (p : Int) (i : Nat)
    (hi : i < (seed_urls base p).length) (h0 : 0 < i) :
    (seed_urls base p).get ⟨i, hi⟩ = base ++ "/?page=" ++ pyStr (i + 1) := by
  unfold seed_urls at hi ⊢
  simp only [List.get_eq_getElem, List.getElem_map, List.getElem_range]
  unfold seedUrl
  rw [if_neg (by omega)]
  rfl

-- ### The two request handlers

/-- The dict pushed by the article handler (lines 101-106). -/
structure ArticleRecord where
  title : Option String
  content : Option String
  url : String
  summary : Option String
  deriving DecidableEq

/-- Python string interpolation of a value that may be None. -/
def pyOptStr : Option String → String
  | none => "None"
  | some s => s

/-- Python truthiness of the extracted text: None and "" are falsy. -/
def truthy : Option String → Bool
  | none => false
  | some s => !(s == "")

/-- Text of the prompt f-string (lines 87-93) before the interpolated content. -/
def prompt_pre : String :=
  "\nYour task is to summarize the content of the article in 3 sentences.\nThe original content of the article is:\n"

/-- Text of the prompt f-string (lines 87-93) after the interpolated content. -/
def prompt_post : String :=
  "\n\nKeep the answer simple and concise. Focus on the main points of the article, and avoid unnecessary details.\n"

/-- The prompt f-string (lines 87-93), built unconditionally from `content`. -/
def prompt (content : Option String) : String :=
  prompt_pre ++ pyOptStr content ++ prompt_post

/-- Observable effects of one article-handler invocation: prompts passed to
`client.responses.create`, records passed to `context.push_data`, and event
names passed to `Actor.charge`, each in invocation order. -/
structure ArticleEffects where
  summarizerCalls : List String
  emitted : List ArticleRecord
  billCalls : List String
  deriving DecidableEq

/-- The handler registered for label "ARTICLE" (lines 72-109).  Inputs:
the summarizer (`client.responses.create`, returning `output_text` or
raising), the request URL, and the two selector results as extracted stripped
text (`none` when `select_one` found nothing).  Returns the effects that
actually happened plus `some e` when the summarizer raised `e`: the source
computes `summary` before `push_data` and `Actor.charge`, so a raise skips
both. -/
def request_handler_article (summarize : String → Except String String)
    (url : String) (title_el content_el : Option String) :
    ArticleEffects × Option String :=
  let title := title_el
  let content := content_el
  let p := prompt content
  if truthy content then
    match summarize p with
    | Except.error e =>
        ({ summarizerCalls := [p], emitted := [], billCalls := [] }, some e)
    | Except.ok s =>
        ({ summarizerCalls := [p]
           emitted := [{ title := title, content := content, url := url, summary := some s }]
           billCalls := ["article_summary"] }, none)
  else
    ({ summarizerCalls := []
       emitted := [{ title := title, content := content, url := url, summary := none }]
       billCalls := [] }, none)

/-- One `enqueue_links` request: include globs plus routing label. -/
structure EnqueueCall where
  include_globs : List String
  label : String
  deriving DecidableEq

/-- Observable effects of one listing-handler invocation. -/
structure ListingEffects where
  enqueues : List EnqueueCall
  emitted : List ArticleRecord
  billCalls : List String
  deriving DecidableEq

/-- The glob passed to `enqueue_links` (line 67). -/
def article_glob : String := "https://www.wired.com/story/**"

/-- The default (listing) handler (lines 60-70), parameterized by the links
present on the fetched page to record that its effects do not depend on them:
it issues one `enqueue_links` request (the engine does the matching) and
never calls `push_data` or `Actor.charge`. -/
def request_handler_default (_links : List String) : ListingEffects :=
  { enqueues := [{ include_globs := [article_glob], label := "ARTICLE" }]
    emitted := []
    billCalls := [] }

/-- A summarizer that always succeeds with output_text "S". -/
def summConst : String → Except String String := fun _ => Except.ok "S"

/-- A summarizer that always raises with payload "boom". -/
def summFail : String → Except String String := fun _ => Except.error "boom"

theorem truthy_iff (c : Option String) :
    truthy c = true ↔ c ≠ none ∧ c ≠ some "" := by
  cases c with
  | none => simp [truthy]
  | some s => simp [truthy]

-- ### Claim theorems

/-- C3: for every targetItemCount > 0 and pageSize > 0 the planner computes
pageCount = ceil(targetItemCount / pageSize); the seed sequence has exactly
that length, its first element is the bare base URL, the element at 1-based
position i > 1 is the base URL with "/?page=" and the page number i appended,
and all seed URLs are pairwise distinct. -/
theorem C3_planner_correct (base : String) (n b : Int) (hn : 0 < n) (hb : 0 < b) :
    (plan base n b).pageCount = Int.ceil ((n : ℚ) / (b : ℚ)) ∧
    (((plan base n b).seedUrls.length : Int) = (plan base n b).pageCount ∧
    (plan base n b).seedUrls.head? = some base ∧
    (∀ i : Nat, ∀ hi : i < (plan base n b).seedUrls.length, 0 < i →
      (plan base n b).seedUrls.get ⟨i, hi⟩ = base ++ "/?page=" ++ pyStr (i + 1)) ∧
    (plan base n b).seedUrls.Nodup) := by
  have hpos : 0 < ceil_div n b := ceil_div_pos hn hb
  refine ⟨ceil_div_eq_ceil n b hb, ?_, ?_, ?_, ?_⟩
  · exact seed_urls_length base _ (by omega)
  · exact seed_urls_head base _ hpos
  · intro i hi h0
    exact seed_urls_get base _ i hi h0
  · exact seed_urls_nodup base _

/-- Witness for C3 at targetItemCount = 25, pageSize = 24. -/
theorem C3_planner_correct_witness :
    (0 : Int) < 25 ∧ (0 : Int) < 24 ∧
    ((plan base_url 25 24).pageCount = Int.ceil ((25 : ℚ) / (24 : ℚ)) ∧
    (((plan base_url 25 24).seedUrls.length : Int) = (plan base_url 25 24).pageCount ∧
    (plan base_url 25 24).seedUrls.head? = some base_url ∧
    (∀ i : Nat, ∀ hi : i < (plan base_url 25 24).seedUrls.length, 0 < i →
      (plan base_url 25 24).seedUrls.get ⟨i, hi⟩ = base_url ++ "/?page=" ++ pyStr (i + 1)) ∧
    (plan base_url 25 24).seedUrls.Nodup)) :=
  ⟨by decide, by decide, C3_planner_correct base_url 25 24 (by decide) (by decide)⟩

/-- C6 fails as stated: at targetItemCount = -24 (pageSize 24) the planner
computes pageCount = ceil(-24 / 24) = -1, not 0 (the seed list is empty). -/
theorem C6_counterexample :
    (-24 : Int) ≤ 0 ∧ (plan base_url (-24) 24).pageCount ≠ 0 := by
  exact ⟨by decide, by decide⟩

/-- C6 (amended): for every targetItemCount ≤ 0 and pageSize > 0 the planner
yields pageCount = ceil(targetItemCount / pageSize) ≤ 0 — which equals 0
exactly when targetItemCount > -pageSize — and an empty seed-URL sequence;
nothing raises and the only division is by pageSize > 0. -/
theorem C6_amended (base : String) (n b : Int) (hn : n ≤ 0) (hb : 0 < b) :
    (plan base n b).pageCount = Int.ceil ((n : ℚ) / (b : ℚ)) ∧
    (plan base n b).pageCount ≤ 0 ∧
    ((plan base n b).pageCount = 0 ↔ -b < n) ∧
    (plan base n b).seedUrls = [] := by
  have hnp : ceil_div n b ≤ 0 := ceil_div_nonpos hn hb
  obtain ⟨h1, h2⟩ := ceil_div_spec n b hb
  have key : ceil_div n b = 0 ↔ -b < n := by
    constructor
    · intro h0
      rw [h0] at h1
      linarith [h1]
    · intro hlt
      have hc1 : -b < b * ceil_div n b := lt_of_lt_of_le hlt h2
      by_contra hne
      have hc2 : ceil_div n b + 1 ≤ 0 := by omega
      nlinarith [hc1, hc2, hb]
  exact ⟨ceil_div_eq_ceil n b hb, hnp, key, seed_urls_eq_nil hnp⟩

/-- Witness for the amended C6 at targetItemCount = -24, pageSize = 24. -/
theorem C6_amended_witness :
    (-24 : Int) ≤ 0 ∧ (0 : Int) < 24 ∧
    ((plan base_url (-24) 24).pageCount = Int.ceil ((-24 : ℚ) / (24 : ℚ)) ∧
    (plan base_url (-24) 24).pageCount ≤ 0 ∧
    ((plan base_url (-24) 24).pageCount = 0 ↔ -24 < (-24 : Int)) ∧
    (plan base_url (-24) 24).seedUrls = []) :=
  ⟨by decide, by decide, C6_amended base_url (-24) 24 (by decide) (by decide)⟩

/-- C7 fails as stated: at maxArticles = 0 the planning stage raises no
validation error; it returns normally with a zero-page plan and no seeds. -/
theorem C7_counterexample :
    (0 : Int) ≤ 0 ∧
    planningStep 0 = Except.ok { pageCount := 0, seedUrls := [] } := by
  exact ⟨by decide, rfl⟩

/-- C7 (amended): for every configured maxArticles ≤ 0, planning does not
reject the input: no validation error is raised — the stage returns its plan
normally — and the crawl is silently configured with pageCount ≤ 0 and an
empty seed list. -/
theorem C7_amended (n : Int) (hn : n ≤ 0) :
    planningStep n = Except.ok (plan base_url n ARTICLES_PER_PAGE) ∧
    (plan base_url n ARTICLES_PER_PAGE).pageCount ≤ 0 ∧
    (plan base_url n ARTICLES_PER_PAGE).seedUrls = [] := by
  have hnp : ceil_div n ARTICLES_PER_PAGE ≤ 0 :=
    ceil_div_nonpos hn (by decide)
  exact ⟨rfl, hnp, seed_urls_eq_nil hnp⟩

/-- Witness for the amended C7 at maxArticles = 0. -/
theorem C7_amended_witness :
    (0 : Int) ≤ 0 ∧
    (planningStep 0 = Except.ok (plan base_url 0 ARTICLES_PER_PAGE) ∧
    (plan base_url 0 ARTICLES_PER_PAGE).pageCount ≤ 0 ∧
    (plan base_url 0 ARTICLES_PER_PAGE).seedUrls = []) :=
  ⟨by decide, C7_amended 0 (by decide)⟩

/-- C8: the crawler is constructed with max_requests_per_crawl equal to
maxArticles plus the planner's page count, i.e. the configured request budget
is targetItemCount + pageCount; for positive maxArticles this is exactly the
number of listing seed pages plus targetItemCount further fetches. -/
theorem C8_request_budget (n : Int) (hn : 0 < n) :
    max_requests_per_crawl n = n + (plan base_url n ARTICLES_PER_PAGE).pageCount ∧
    max_requests_per_crawl n = ((start_urls n).length : Int) + n := by
  constructor
  · rfl
  · have hpos : 0 < ceil_div n ARTICLES_PER_PAGE := ceil_div_pos hn (by decide)
    have hl := seed_urls_length base_url (ceil_div n ARTICLES_PER_PAGE) (by omega)
    show n + total_pages n = ((start_urls n).length : Int) + n
    unfold start_urls total_pages
    rw [hl]
    ring

/-- Witness for C8 at maxArticles = 24. -/
theorem C8_request_budget_witness :
    (0 : Int) < 24 ∧
    (max_requests_per_crawl 24 = 24 + (plan base_url 24 ARTICLES_PER_PAGE).pageCount ∧
    max_requests_per_crawl 24 = ((start_urls 24).length : Int) + 24) :=
  ⟨by decide, C8_request_budget 24 (by decide)⟩

/-- C5: the listing (default) handler's only effect is one enqueue request
for links matching the glob "https://www.wired.com/story/**" with label
"ARTICLE"; it emits no record and triggers no billing event, and its effects
do not depend on the links present on the page (zero matches included). -/
theorem C5_listing_handler (links : List String) :
    (request_handler_default links).emitted = [] ∧
    (request_handler_default links).billCalls = [] ∧
    (request_handler_default links).enqueues =
      [{ include_globs := [article_glob], label := "ARTICLE" }] ∧
    request_handler_default links = request_handler_default [] :=
  ⟨rfl, rfl, rfl, rfl⟩

/-- C9: when the content element is present but its stripped text is the
empty string, the article handler makes no summarizer call, emits one record
with content = "" and summary = null, and triggers no billing event: both
gates test the text's truthiness, not element presence. -/
theorem C9_empty_text (summarize : String → Except String String)
    (url : String) (t : Option String) :
    request_handler_article summarize url t (some "") =
      ({ summarizerCalls := []
         emitted := [{ title := t, content := some "", url := url, summary := none }]
         billCalls := [] }, none) := rfl

/-- C10: every record emitted by the article handler has a non-null summary
only when its content is non-null and non-empty. -/
theorem C10_summary_implies_content (summarize : String → Except String String)
    (url : String) (t c : Option String) (r : ArticleRecord)
    (hr : r ∈ (request_handler_article summarize url t c).1.emitted)
    (hs : r.summary ≠ none) :
    r.content ≠ none ∧ r.content ≠ some "" := by
  unfold request_handler_article at hr
  by_cases hc : truthy c = true
  · rw [if_pos hc] at hr
    cases hsm : summarize (prompt c) with
    | error e =>
      rw [hsm] at hr
      simp at hr
    | ok s =>
      rw [hsm] at hr
      simp at hr
      subst hr
      simpa using (truthy_iff c).mp hc
  · rw [if_neg hc] at hr
    simp at hr
    subst hr
    simp at hs

/-- Witness for C10: a successfully summarized article record. -/
theorem C10_summary_implies_content_witness :
    ({ title := none, content := some "x", url := "u", summary := some "S" } :
        ArticleRecord) ∈
      (request_handler_article summConst "u" none (some "x")).1.emitted ∧
    ({ title := none, content := some "x", url := "u", summary := some "S" } :
        ArticleRecord).summary ≠ none ∧
    (({ title := none, content := some "x", url := "u", summary := some "S" } :
        ArticleRecord).content ≠ none ∧
      ({ title := none, content := some "x", url := "u", summary := some "S" } :
        ArticleRecord).content ≠ some "") :=
  ⟨by decide, by decide,
    C10_summary_implies_content summConst "u" none (some "x") _ (by decide) (by decide)⟩

/-- C1 fails as stated: with non-null content "x" and a summarizer that
raises, the raise happens before the Actor.charge line, so no billing event
is triggered; and with the non-null empty content "" no billing event is
triggered either, because the gate tests truthiness. -/
theorem C1_counterexample :
    ((some "x" : Option String) ≠ none ∧
      (request_handler_article summFail "u" none (some "x")).1.billCalls = []) ∧
    ((some "" : Option String) ≠ none ∧
      (request_handler_article summConst "u" none (some "")).1.billCalls = []) :=
  ⟨⟨by decide, by decide⟩, ⟨by decide, by decide⟩⟩

/-- C1 (amended): the billing event "article_summary" is triggered exactly
once iff the extracted content is truthy (non-null and non-empty) and the
summarizer call returned normally; with null content, empty content, or a
summarizer raise it is never triggered. -/
theorem C1_amended (summarize : String → Except String String)
    (url : String) (t c : Option String) :
    (request_handler_article summarize url t c).1.billCalls =
      (if truthy c && ((request_handler_article summarize url t c).2).isNone
       then ["article_summary"] else []) := by
  cases hc : truthy c with
  | false => simp [request_handler_article, hc]
  | true =>
    cases hs : summarize (prompt c) with
    | error e => simp [request_handler_article, hc, hs]
    | ok s => simp [request_handler_article, hc, hs]

/-- C2 fails as stated: content "x" is present but the summarizer raises;
the handler then emits nothing and bills nothing — the record with
summary = null is never pushed, and the exception propagates. -/
theorem C2_counterexample :
    truthy (some "x") = true ∧
    (request_handler_article summFail "u" (some "T") (some "x")).1.emitted = [] ∧
    (request_handler_article summFail "u" (some "T") (some "x")).1.billCalls = [] ∧
    (request_handler_article summFail "u" (some "T") (some "x")).2 = some "boom" :=
  ⟨by decide, by decide, by decide, by decide⟩

/-- C2 (amended): for every article page with truthy content on which the
summarizer raises, the handler propagates that exception before push_data
and Actor.charge: no record is emitted and no billing event is triggered;
the error surfaces from this single page invocation (the handler implements
no retry loop of its own). -/
theorem C2_amended (summarize : String → Except String String)
    (url : String) (t c : Option String) (e : String)
    (hc : truthy c = true) (hf : summarize (prompt c) = Except.error e) :
    request_handler_article summarize url t c =
      ({ summarizerCalls := [prompt c], emitted := [], billCalls := [] }, some e) := by
  simp [request_handler_article, hc, hf]

/-- Witness for the amended C2: a raising summarizer on content "x". -/
theorem C2_amended_witness :
    truthy (some "x") = true ∧
    summFail (prompt (some "x")) = Except.error "boom" ∧
    request_handler_article summFail "u" none (some "x") =
      ({ summarizerCalls := [prompt (some "x")], emitted := [], billCalls := [] },
        some "boom") :=
  ⟨by decide, rfl, C2_amended summFail "u" none (some "x") "boom" (by decide) rfl⟩

/-- C4 fails as stated: the non-null empty content "" triggers no summarizer
call (and gets summary = null), and with non-null content "x" under a raising
summarizer no record at all is emitted. -/
theorem C4_counterexample :
    ((some "" : Option String) ≠ none ∧
      (request_handler_article summConst "u" none (some "")).1.summarizerCalls = []) ∧
    (request_handler_article summFail "u" none (some "x")).1.emitted = [] :=
  ⟨⟨by decide, by decide⟩, by decide⟩

/-- C4 (amended): whenever the summarizer call does not raise, the article
handler emits exactly one record {title, content, url: page.url, summary};
the summarizer is called — once, with the fixed prompt containing the
literal content — iff content is truthy (non-null and non-empty), and
summary is null whenever no call is made; if the call raises, no record is
emitted. -/
theorem C4_amended (summarize : String → Except String String)
    (url : String) (t : Option String) :
    (∀ c : Option String, truthy c = false →
      request_handler_article summarize url t c =
        ({ summarizerCalls := []
           emitted := [{ title := t, content := c, url := url, summary := none }]
           billCalls := [] }, none)) ∧
    (∀ s out : String, s ≠ "" → summarize (prompt (some s)) = Except.ok out →
      request_handler_article summarize url t (some s) =
        ({ summarizerCalls := [prompt (some s)]
           emitted := [{ title := t, content := some s, url := url, summary := some out }]
           billCalls := ["article_summary"] }, none)) ∧
    (∀ s e : String, s ≠ "" → summarize (prompt (some s)) = Except.error e →
      request_handler_article summarize url t (some s) =
        ({ summarizerCalls := [prompt (some s)]
           emitted := []
           billCalls := [] }, some e)) ∧
    (∀ s : String, prompt (some s) = prompt_pre ++ s ++ prompt_post) := by
  refine ⟨?_, ?_, ?_, fun s => rfl⟩
  · intro c hc
    simp [request_handler_article, hc]
  · intro s out hs hok
    have ht : truthy (some s) = true := by simp [truthy, hs]
    simp [request_handler_article, ht, hok]
  · intro s e hs herr
    have ht : truthy (some s) = true := by simp [truthy, hs]
    simp [request_handler_article, ht, herr]

/-- Witness for the amended C4: null content with a succeeding summarizer,
and content "x" with a succeeding summarizer. -/
theorem C4_amended_witness :
    (truthy (none : Option String) = false ∧
      request_handler_article summConst "u" none none =
        ({ summarizerCalls := []
           emitted := [{ title := none, content := none, url := "u", summary := none }]
           billCalls := [] }, none)) ∧
    ("x" ≠ "" ∧ summConst (prompt (some "x")) = Except.ok "S" ∧
      request_handler_article summConst "u" none (some "x") =
        ({ summarizerCalls := [prompt (some "x")]
           emitted := [{ title := none, content := some "x", url := "u", summary := some "S" }]
           billCalls := ["article_summary"] }, none)) :=
  ⟨⟨by decide, (C4_amended summConst "u" none).1 none (by decide)⟩,
    ⟨by decide, rfl, (C4_amended summConst "u" none).2.1 "x" "S" (by decide) rfl⟩⟩
